import Mathlib

/-!
Verification of the header-normalization and record-coercion pipeline of the
Digitly data-cleaning tool.  The definitions below are a shallow embedding of
the TypeScript functions `mapHeaders`, `processData`, `handleUpload`
(src/components/AISearch.tsx) and the filter stage of
`filteredAndSortedData` (src/components/PrioritizationPanel.tsx).
JavaScript values appearing in rows are modelled by `JsVal`; numbers are
modelled by exact decimal fractions (an idealization of IEEE doubles that is
exact on the decimal literals the pipeline handles); rows and records are
association lists with JavaScript object semantics (first-key lookup,
overwrite-or-append assignment).
-/

namespace Digitly

/-- Checks that the first list is an initial segment of the second,
comparing characters one by one. -/
def startsWithL : List Char → List Char → Bool
  | [], _ => true
  | _ :: _, [] => false
  | a :: as, b :: bs => a == b && startsWithL as bs

/-- Checks that `pat` occurs contiguously somewhere inside the second list;
model of JavaScript `String.prototype.includes`. -/
def containsL (pat : List Char) : List Char → Bool
  | [] => pat.isEmpty
  | l@(_ :: t) => startsWithL pat l || containsL pat t

/-- Model of JavaScript `h.includes(pat)`. -/
def containsStr (h pat : String) : Bool :=
  containsL pat.toList h.toList

/-- Model of JavaScript `toLowerCase` (exact on ASCII). -/
def lowerStr (s : String) : String :=
  String.mk (s.toList.map Char.toLower)

/-- Model of JavaScript `trim`: drop whitespace at both ends. -/
def trimStr (s : String) : String :=
  String.mk (((s.toList.dropWhile Char.isWhitespace).reverse.dropWhile
    Char.isWhitespace).reverse)

/-- Splits a character list at every comma; the list of pieces is never
empty. -/
def splitCommaL : List Char → List (List Char)
  | [] => [[]]
  | c :: t =>
    if c = ',' then [] :: splitCommaL t
    else
      match splitCommaL t with
      | h :: r => (c :: h) :: r
      | [] => [[c]]

/-- Model of JavaScript `s.split(',')`. -/
def splitComma (s : String) : List String :=
  (splitCommaL s.toList).map String.mk

/-- Model of JavaScript `Array.prototype.join`. -/
def joinSep (sep : String) : List String → String
  | [] => ""
  | [x] => x
  | x :: y :: r => x ++ sep ++ joinSep sep (y :: r)

/-- Model of JavaScript `replace(/\s+/g, '')`: remove every whitespace
character. -/
def stripWs (s : String) : String :=
  String.mk (s.toList.filter (fun c => !c.isWhitespace))

/-- Exact decimal idealization of a finite JavaScript number: the value is
`m / 10 ^ e`.  All numbers produced by the pipeline's parsers are decimal
fractions, so this representation loses nothing on them. -/
structure DecNum where
  m : Int
  e : Nat
deriving DecidableEq

/-- JavaScript values that can appear in an uploaded row or in a processed
record: strings, finite numbers, `NaN`, and arrays. -/
inductive JsVal where
  | str (s : String)
  | num (q : DecNum)
  | nan
  | arr (vs : List JsVal)

/-- A row or record: a JavaScript object as an association list in key
insertion order. -/
abbrev Row := List (String × JsVal)

/-- Property lookup on a JavaScript object (`row[key]`); `none` models
`undefined`. -/
def getKey : Row → String → Option JsVal
  | [], _ => none
  | (k, v) :: r, key => if k = key then some v else getKey r key

/-- Property assignment on a JavaScript object (`obj[key] = v`): overwrite in
place when the key exists, append otherwise. -/
def setKey : Row → String → JsVal → Row
  | [], key, v => [(key, v)]
  | (k, w) :: r, key, v => if k = key then (key, v) :: r else (k, w) :: setKey r key v

/-- JavaScript truthiness of a value: `""`, `0` and `NaN` are falsy, arrays
are always truthy. -/
def jsTruthy : JsVal → Bool
  | .str s => if s = "" then false else true
  | .num q => if q.m = 0 then false else true
  | .nan => false
  | .arr _ => true

/-- Model of `a || b` on values. -/
def jsOr (v d : JsVal) : JsVal :=
  if jsTruthy v then v else d

/-- Model of `x || b` where `x` may be `undefined`. -/
def jsOrOpt (v : Option JsVal) (d : JsVal) : JsVal :=
  match v with
  | some w => jsOr w d
  | none => d

/-- Fractional digits of a decimal number: `fr` printed with leading zeros to
`e` digits, trailing zeros removed. -/
def fracPart (fr e : Nat) : String :=
  let raw := toString fr
  let padded := String.mk (List.replicate (e - raw.length) '0') ++ raw
  String.mk (padded.toList.reverse.dropWhile (fun c => c = '0')).reverse

/-- Model of JavaScript number-to-string conversion on the decimal
idealization: sign, integer part, and (when nonzero) the fractional digits.
Matches JS output on every decimal fraction in the plain-notation range. -/
def decNumToString (d : DecNum) : String :=
  let sgn := if d.m < 0 then "-" else ""
  let n := d.m.natAbs
  let p := 10 ^ d.e
  if n % p = 0 then sgn ++ toString (n / p)
  else sgn ++ toString (n / p) ++ "." ++ fracPart (n % p) d.e

mutual

/-- Model of JavaScript `String(value)` / `ToString`: arrays join their
elements with a comma, `NaN` prints as `"NaN"`. -/
def jsToString : JsVal → String
  | .str s => s
  | .num q => decNumToString q
  | .nan => "NaN"
  | .arr vs => joinSep "," (jsToStringList vs)

/-- `ToString` of every element of an array. -/
def jsToStringList : List JsVal → List String
  | [] => []
  | v :: vs => jsToString v :: jsToStringList vs

end

/-- Model of `ToString` applied to a possibly-`undefined` value. -/
def jsToStringU : Option JsVal → String
  | some v => jsToString v
  | none => "undefined"

/-- Numeric value of a list of decimal digit characters. -/
def decDigitsVal (l : List Char) : Nat :=
  l.foldl (fun a c => a * 10 + (c.toNat - 48)) 0

/-- Value of a hexadecimal digit character, `none` when the character is not
one. -/
def hexDigitVal (c : Char) : Option Nat :=
  if c.isDigit then some (c.toNat - 48)
  else if 'a' ≤ c ∧ c ≤ 'f' then some (c.toNat - 87)
  else if 'A' ≤ c ∧ c ≤ 'F' then some (c.toNat - 55)
  else none

/-- Model of JavaScript `parseInt(s)` (no radix argument): skip leading
whitespace, optional sign, then the longest decimal-digit run — or a
hexadecimal run after a `0x`/`0X` prefix; `none` models `NaN`. -/
def parseIntStr (s : String) : Option Int :=
  let l := s.toList.dropWhile Char.isWhitespace
  let sgn : Int := match l with
    | '-' :: _ => -1
    | _ => 1
  let l1 : List Char := match l with
    | '-' :: t => t
    | '+' :: t => t
    | _ => l
  match l1 with
  | '0' :: x :: t =>
    if x = 'x' ∨ x = 'X' then
      let hd := t.takeWhile (fun c => (hexDigitVal c).isSome)
      if hd.isEmpty then none
      else some (sgn * (hd.foldl (fun a c => a * 16 + (hexDigitVal c).getD 0) 0 : Nat))
    else
      some (sgn * decDigitsVal (l1.takeWhile Char.isDigit))
  | _ =>
    let dd := l1.takeWhile Char.isDigit
    if dd.isEmpty then none else some (sgn * decDigitsVal dd)

/-- Model of JavaScript `parseFloat(s)`: skip leading whitespace, then the
longest prefix of the decimal grammar sign-digits-point-digits-exponent;
`none` models `NaN`.  Finite idealization: the `Infinity` literal and
overflow to infinity are outside the model. -/
def parseFloatStr (s : String) : Option DecNum :=
  let l := s.toList.dropWhile Char.isWhitespace
  let sgn : Int := match l with
    | '-' :: _ => -1
    | _ => 1
  let l1 : List Char := match l with
    | '-' :: t => t
    | '+' :: t => t
    | _ => l
  let ds := l1.takeWhile Char.isDigit
  let l2 := l1.drop ds.length
  let fs : List Char := match l2 with
    | '.' :: t => t.takeWhile Char.isDigit
    | _ => []
  let l3 : List Char := match l2 with
    | '.' :: t => t.dropWhile Char.isDigit
    | _ => l2
  if ds.isEmpty ∧ fs.isEmpty then none
  else
    let mant : Nat := decDigitsVal ds * 10 ^ fs.length + decDigitsVal fs
    let e : Int := match l3 with
      | c :: t =>
        if c = 'e' ∨ c = 'E' then
          let esgn : Int := match t with
            | '-' :: _ => -1
            | _ => 1
          let t1 : List Char := match t with
            | '-' :: u => u
            | '+' :: u => u
            | _ => t
          let eds := t1.takeWhile Char.isDigit
          if eds.isEmpty then 0 else esgn * (decDigitsVal eds : Int)
        else 0
      | [] => 0
    let diff : Int := e - (fs.length : Int)
    if 0 ≤ diff then some ⟨sgn * (mant : Int) * (10 : Int) ^ diff.toNat, 0⟩
    else some ⟨sgn * (mant : Int), (-diff).toNat⟩

/-- Model of `parseInt(x)` on a row value: `ToString` then parse
(`parseInt(undefined)` reads the string `"undefined"`). -/
def parseIntVal (v : Option JsVal) : Option Int :=
  parseIntStr (jsToStringU v)

/-- Model of `parseFloat(x)` on a row value. -/
def parseFloatVal (v : Option JsVal) : Option DecNum :=
  parseFloatStr (jsToStringU v)

/-- The number produced by a `parseInt` call: a finite number or `NaN`. -/
def intResult (o : Option Int) : JsVal :=
  match o with
  | some n => .num ⟨n, 0⟩
  | none => .nan

/-- The number produced by a `parseFloat` call: a finite number or `NaN`. -/
def floatResult (o : Option DecNum) : JsVal :=
  match o with
  | some q => .num q
  | none => .nan

/-- The three entity kinds of the tool. -/
inductive EntityType where
  | clients
  | workers
  | tasks
deriving DecidableEq

/-- The string the TypeScript union value denotes. -/
def entityName : EntityType → String
  | .clients => "clients"
  | .workers => "workers"
  | .tasks => "tasks"

/-- The key `processData` reads the identity from:
`` `${entityType.slice(0, -1)}ID` `` in the source. -/
def idKey (t : EntityType) : String :=
  (entityName t).dropRight 1 ++ "ID"

/-- The per-kind header mapping table of `mapHeaders`, in declaration order:
human-readable label paired with the canonical target field. -/
def labelsFor : EntityType → List (String × String)
  | .clients =>
    [("Client ID", "ClientID"),
     ("Client Name", "ClientName"),
     ("Client Group", "ClientGroup"),
     ("Priority Level", "PriorityLevel"),
     ("Requested Task IDs", "RequestedTaskIDs"),
     ("Preferred Phases", "PreferredPhases"),
     ("Max Budget", "MaxBudget"),
     ("Attributes JSON", "AttributesJSON")]
  | .workers =>
    [("Worker ID", "WorkerID"),
     ("Worker Name", "WorkerName"),
     ("Worker Group", "WorkerGroup"),
     ("Skills", "Skills"),
     ("Available Slots", "AvailableSlots"),
     ("Max Load Per Phase", "MaxLoadPerPhase"),
     ("Hourly Rate", "HourlyRate"),
     ("Attributes JSON", "AttributesJSON")]
  | .tasks =>
    [("Task ID", "TaskID"),
     ("Task Name", "TaskName"),
     ("Duration", "Duration"),
     ("Required Skills", "RequiredSkills"),
     ("Preferred Phases", "PreferredPhases"),
     ("Priority Level", "PriorityLevel"),
     ("Dependencies", "Dependencies"),
     ("Max Concurrent", "MaxConcurrent"),
     ("Attributes JSON", "AttributesJSON")]

/-- Normalization `mapHeaders` applies to a raw header before matching:
`originalHeader.trim().toLowerCase()`. -/
def normalizeHeader (h : String) : String :=
  lowerStr (trimStr h)

/-- The match test of `mapHeaders`: the trimmed, lowercased raw header must
contain the whitespace-stripped, lowercased label as a substring
(`normalizedHeader.includes(mappedHeader.toLowerCase().replace(/\s+/g, ''))`). -/
def headerMatch (h : String) (p : String × String) : Bool :=
  containsStr (normalizeHeader h) (stripWs (lowerStr p.1))

/-- Header mapping for one raw header: the target field of the first label in
declaration order that matches, the header itself when none does. -/
def mapHeader (t : EntityType) (h : String) : String :=
  match (labelsFor t).find? (headerMatch h) with
  | some p => p.2
  | none => h

/-- The whole `mapHeaders` function: build the header mapping from the keys
of the first row, then rebuild every row under the mapped keys.  A key absent
from the first row, or mapped to the empty string, fails the `if (newKey)`
test in the source and its column is dropped. -/
def mapHeaders (rawData : List Row) (t : EntityType) : List Row :=
  match rawData with
  | [] => []
  | firstRow :: _ =>
    let keys0 := firstRow.map Prod.fst
    rawData.map (fun row =>
      row.foldl (fun acc kv =>
        if keys0.contains kv.1 then
          let newKey := mapHeader t kv.1
          if newKey = "" then acc else setKey acc newKey kv.2
        else acc) [])

/-- Coercion of a string-list field
(`typeof v === 'string' ? v.split(',').map(x => x.trim()) : v || []`). -/
def coerceStrList (v : Option JsVal) : JsVal :=
  match v with
  | some (.str s) => .arr ((splitComma s).map (fun p => .str (trimStr p)))
  | some w => jsOr w (.arr [])
  | none => .arr []

/-- Coercion of a numeric-list field
(`typeof v === 'string' ? v.split(',').map(x => parseInt(x.trim())) : v || []`). -/
def coerceIntList (v : Option JsVal) : JsVal :=
  match v with
  | some (.str s) => .arr ((splitComma s).map (fun p => intResult (parseIntStr (trimStr p))))
  | some w => jsOr w (.arr [])
  | none => .arr []

/-- Coercion of an integer scalar field (`parseInt(v) || d`). -/
def coerceIntField (v : Option JsVal) (d : Int) : JsVal :=
  jsOr (intResult (parseIntVal v)) (.num ⟨d, 0⟩)

/-- Coercion of a float scalar field (`parseFloat(v) || d`). -/
def coerceFloatField (v : Option JsVal) (d : Int) : JsVal :=
  jsOr (floatResult (parseFloatVal v)) (.num ⟨d, 0⟩)

/-- The identity value `processData` assigns:
`row[idKey] || 'temp-' + index`. -/
def idValue (t : EntityType) (index : Nat) (row : Row) : JsVal :=
  jsOrOpt (getKey row (idKey t)) (.str ("temp-" ++ toString index))

/-- One row of `processData`: spread the row, assign `id`, then overwrite the
kind-specific list and scalar numeric fields in source order. -/
def processRow (t : EntityType) (index : Nat) (row : Row) : Row :=
  let pr := setKey row "id" (idValue t index row)
  match t with
  | .clients =>
    let pr := setKey pr "RequestedTaskIDs" (coerceStrList (getKey row "RequestedTaskIDs"))
    let pr := setKey pr "PreferredPhases" (coerceIntList (getKey row "PreferredPhases"))
    let pr := setKey pr "PriorityLevel" (coerceIntField (getKey row "PriorityLevel") 1)
    setKey pr "MaxBudget" (coerceFloatField (getKey row "MaxBudget") 0)
  | .workers =>
    let pr := setKey pr "Skills" (coerceStrList (getKey row "Skills"))
    let pr := setKey pr "AvailableSlots" (coerceIntList (getKey row "AvailableSlots"))
    let pr := setKey pr "MaxLoadPerPhase" (coerceIntField (getKey row "MaxLoadPerPhase") 1)
    setKey pr "HourlyRate" (coerceFloatField (getKey row "HourlyRate") 0)
  | .tasks =>
    let pr := setKey pr "RequiredSkills" (coerceStrList (getKey row "RequiredSkills"))
    let pr := setKey pr "PreferredPhases" (coerceIntList (getKey row "PreferredPhases"))
    let pr := setKey pr "Dependencies" (coerceStrList (getKey row "Dependencies"))
    let pr := setKey pr "Duration" (coerceIntField (getKey row "Duration") 1)
    let pr := setKey pr "PriorityLevel" (coerceIntField (getKey row "PriorityLevel") 1)
    setKey pr "MaxConcurrent" (coerceIntField (getKey row "MaxConcurrent") 1)

/-- The whole `processData` function: coerce every row, indexed from 0. -/
def processData (rawData : List Row) (t : EntityType) : List Row :=
  rawData.enum.map (fun p => processRow t p.1 p.2)

/-- Model of `v.split(',')` with JavaScript method-call semantics: calling
`split` on a non-string raises a `TypeError`. -/
def jsSplitE (v : JsVal) : Except String (List String) :=
  match v with
  | .str s => .ok (splitComma s)
  | _ => .error "TypeError: split is not a function"

/-- Does `typeof v === 'string'` hold. -/
def typeofString : JsVal → Bool
  | .str _ => true
  | _ => false

/-- Exception-aware rendering of the string-list coercion: the `split` call
is fallible, but it is guarded by the `typeof` test. -/
def coerceStrListE (v : Option JsVal) : Except String JsVal :=
  match v with
  | some w =>
    if typeofString w then
      match jsSplitE w with
      | .error e => .error e
      | .ok ps => .ok (.arr (ps.map (fun p => .str (trimStr p))))
    else .ok (jsOr w (.arr []))
  | none => .ok (.arr [])

/-- Exception-aware rendering of the numeric-list coercion. -/
def coerceIntListE (v : Option JsVal) : Except String JsVal :=
  match v with
  | some w =>
    if typeofString w then
      match jsSplitE w with
      | .error e => .error e
      | .ok ps => .ok (.arr (ps.map (fun p => intResult (parseIntStr (trimStr p)))))
    else .ok (jsOr w (.arr []))
  | none => .ok (.arr [])

/-- Exception-aware rendering of one `processData` row: every operation that
can raise in JavaScript is threaded through `Except`. -/
def processRowE (t : EntityType) (index : Nat) (row : Row) : Except String Row :=
  let pr := setKey row "id" (idValue t index row)
  match t with
  | .clients =>
    match coerceStrListE (getKey row "RequestedTaskIDs") with
    | .error e => .error e
    | .ok v1 =>
      match coerceIntListE (getKey row "PreferredPhases") with
      | .error e => .error e
      | .ok v2 =>
        let pr := setKey pr "RequestedTaskIDs" v1
        let pr := setKey pr "PreferredPhases" v2
        let pr := setKey pr "PriorityLevel" (coerceIntField (getKey row "PriorityLevel") 1)
        .ok (setKey pr "MaxBudget" (coerceFloatField (getKey row "MaxBudget") 0))
  | .workers =>
    match coerceStrListE (getKey row "Skills") with
    | .error e => .error e
    | .ok v1 =>
      match coerceIntListE (getKey row "AvailableSlots") with
      | .error e => .error e
      | .ok v2 =>
        let pr := setKey pr "Skills" v1
        let pr := setKey pr "AvailableSlots" v2
        let pr := setKey pr "MaxLoadPerPhase" (coerceIntField (getKey row "MaxLoadPerPhase") 1)
        .ok (setKey pr "HourlyRate" (coerceFloatField (getKey row "HourlyRate") 0))
  | .tasks =>
    match coerceStrListE (getKey row "RequiredSkills") with
    | .error e => .error e
    | .ok v1 =>
      match coerceIntListE (getKey row "PreferredPhases") with
      | .error e => .error e
      | .ok v2 =>
        match coerceStrListE (getKey row "Dependencies") with
        | .error e => .error e
        | .ok v3 =>
          let pr := setKey pr "RequiredSkills" v1
          let pr := setKey pr "PreferredPhases" v2
          let pr := setKey pr "Dependencies" v3
          let pr := setKey pr "Duration" (coerceIntField (getKey row "Duration") 1)
          let pr := setKey pr "PriorityLevel" (coerceIntField (getKey row "PriorityLevel") 1)
          .ok (setKey pr "MaxConcurrent" (coerceIntField (getKey row "MaxConcurrent") 1))

/-- Result shape of `handleUpload`: success flag, the three collections on
success, collected error messages, the warnings list when one is produced,
and how many files were handed to the parser. -/
structure UploadOutcome where
  success : Bool
  uploadData : Option (List Row × List Row × List Row)
  errors : List String
  warnings : Option (List String)
  parsedCount : Nat

/-- The aggregate message `handleUpload` reports when a file slot is empty. -/
def missingFilesMsg : String :=
  "Please upload all three required files: clients, workers, and tasks"

/-- Model of `handleUpload`: each slot is `none` when no file was selected,
otherwise the outcome of parsing that file (`Except` models a rejected
parse promise).  A missing slot short-circuits before any parsing; otherwise
all three files are parsed and, mirroring `Promise.all`, the first parse
error aborts the batch. -/
def handleUpload (fClients fWorkers fTasks : Option (Except String (List Row))) :
    UploadOutcome :=
  match fClients, fWorkers, fTasks with
  | some pc, some pw, some pt =>
    match pc, pw, pt with
    | .ok cr, .ok wr, .ok tr =>
      { success := true
        uploadData := some
          (processData (mapHeaders cr .clients) .clients,
           processData (mapHeaders wr .workers) .workers,
           processData (mapHeaders tr .tasks) .tasks)
        errors := []
        warnings := some []
        parsedCount := 3 }
    | .error e, _, _ =>
      { success := false, uploadData := none, errors := [e],
        warnings := none, parsedCount := 3 }
    | _, .error e, _ =>
      { success := false, uploadData := none, errors := [e],
        warnings := none, parsedCount := 3 }
    | _, _, .error e =>
      { success := false, uploadData := none, errors := [e],
        warnings := none, parsedCount := 3 }
  | _, _, _ =>
    { success := false, uploadData := none, errors := [missingFilesMsg],
      warnings := none, parsedCount := 0 }

/-- The match test of the grid search: some stringified field value contains
the search term, both lowercased. -/
def rowMatches (item : Row) (term : String) : Bool :=
  (item.map Prod.snd).any (fun v => containsStr (lowerStr (jsToString v)) (lowerStr term))

/-- The filter stage of `filteredAndSortedData` (no sort key active):
keep the rows some field value of which matches the search term. -/
def filteredData (rs : List Row) (term : String) : List Row :=
  rs.filter (fun item => rowMatches item term)

/-! ## Lemmas about the object model -/

theorem getKey_setKey (r : Row) (kset k : String) (v : JsVal) :
    getKey (setKey r kset v) k = if kset = k then some v else getKey r k := by
  induction r with
  | nil =>
    by_cases h : kset = k <;> simp [setKey, getKey, h]
  | cons hd tl ih =>
    obtain ⟨k0, v0⟩ := hd
    by_cases h0 : k0 = kset
    · subst h0
      by_cases h : k0 = k <;> simp [setKey, getKey, h]
    · by_cases h : k0 = k
      · subst h
        have : ¬ kset = k0 := fun he => h0 he.symm
        simp [setKey, getKey, h0, this]
      · simp [setKey, getKey, h0, h, ih]

theorem find?_of_partition {α : Type} (p : α → Bool) (pre post : List α) (a : α)
    (h1 : ∀ x ∈ pre, p x = false) (h2 : p a = true) :
    (pre ++ a :: post).find? p = some a := by
  induction pre with
  | nil => simp [List.find?_cons_of_pos, h2]
  | cons b l ih =>
    have hb : p b = false := h1 b (by simp)
    simpa [List.find?_cons_of_neg, hb] using ih (fun x hx => h1 x (by simp [hx]))

theorem coerceStrListE_ok (v : Option JsVal) :
    coerceStrListE v = .ok (coerceStrList v) := by
  cases v with
  | none => rfl
  | some w => cases w <;> rfl

theorem coerceIntListE_ok (v : Option JsVal) :
    coerceIntListE v = .ok (coerceIntList v) := by
  cases v with
  | none => rfl
  | some w => cases w <;> rfl

theorem coerceIntField_of_parse_none (v : Option JsVal) (d : Int)
    (h : parseIntVal v = none) : coerceIntField v d = .num ⟨d, 0⟩ := by
  simp [coerceIntField, h, intResult, jsOr, jsTruthy]

theorem coerceFloatField_of_parse_none (v : Option JsVal) (d : Int)
    (h : parseFloatVal v = none) : coerceFloatField v d = .num ⟨d, 0⟩ := by
  simp [coerceFloatField, h, floatResult, jsOr, jsTruthy]

theorem coerceIntField_of_parse_zero (v : Option JsVal) (d : Int)
    (h : parseIntVal v = some 0) : coerceIntField v d = .num ⟨d, 0⟩ := by
  simp [coerceIntField, h, intResult, jsOr, jsTruthy]

theorem coerceFloatField_of_parse_zero (v : Option JsVal) (d : Int) (q : DecNum)
    (h : parseFloatVal v = some q) (hz : q.m = 0) :
    coerceFloatField v d = .num ⟨d, 0⟩ := by
  simp [coerceFloatField, h, floatResult, jsOr, jsTruthy, hz]

theorem coerceIntField_exists_num (v : Option JsVal) (d : Int) :
    ∃ q, coerceIntField v d = .num q := by
  cases h : parseIntVal v with
  | none => exact ⟨⟨d, 0⟩, coerceIntField_of_parse_none v d h⟩
  | some n =>
    by_cases hn : n = 0
    · exact ⟨⟨d, 0⟩, coerceIntField_of_parse_zero v d (hn ▸ h)⟩
    · exact ⟨⟨n, 0⟩, by simp [coerceIntField, h, intResult, jsOr, jsTruthy, hn]⟩

theorem coerceFloatField_exists_num (v : Option JsVal) (d : Int) :
    ∃ q, coerceFloatField v d = .num q := by
  cases h : parseFloatVal v with
  | none => exact ⟨⟨d, 0⟩, coerceFloatField_of_parse_none v d h⟩
  | some q =>
    by_cases hq : q.m = 0
    · exact ⟨⟨d, 0⟩, coerceFloatField_of_parse_zero v d q h hq⟩
    · exact ⟨q, by simp [coerceFloatField, h, floatResult, jsOr, jsTruthy, hq]⟩

theorem coerceIntField_one_ne_zero (v : Option JsVal) :
    ∃ q, coerceIntField v 1 = .num q ∧ q.m ≠ 0 := by
  cases h : parseIntVal v with
  | none => exact ⟨⟨1, 0⟩, coerceIntField_of_parse_none v 1 h, by decide⟩
  | some n =>
    by_cases hn : n = 0
    · exact ⟨⟨1, 0⟩, coerceIntField_of_parse_zero v 1 (hn ▸ h), by decide⟩
    · exact ⟨⟨n, 0⟩, by simp [coerceIntField, h, intResult, jsOr, jsTruthy, hn], hn⟩

/-! ## Field projections of processed rows -/

theorem clients_id_proj (i : Nat) (row : Row) :
    getKey (processRow .clients i row) "id" = some (idValue .clients i row) := by
  simp [processRow, getKey_setKey]

theorem clients_rti_proj (i : Nat) (row : Row) :
    getKey (processRow .clients i row) "RequestedTaskIDs" =
      some (coerceStrList (getKey row "RequestedTaskIDs")) := by
  simp [processRow, getKey_setKey]

theorem clients_pp_proj (i : Nat) (row : Row) :
    getKey (processRow .clients i row) "PreferredPhases" =
      some (coerceIntList (getKey row "PreferredPhases")) := by
  simp [processRow, getKey_setKey]

theorem clients_pl_proj (i : Nat) (row : Row) :
    getKey (processRow .clients i row) "PriorityLevel" =
      some (coerceIntField (getKey row "PriorityLevel") 1) := by
  simp [processRow, getKey_setKey]

theorem clients_mb_proj (i : Nat) (row : Row) :
    getKey (processRow .clients i row) "MaxBudget" =
      some (coerceFloatField (getKey row "MaxBudget") 0) := by
  simp [processRow, getKey_setKey]

theorem workers_id_proj (i : Nat) (row : Row) :
    getKey (processRow .workers i row) "id" = some (idValue .workers i row) := by
  simp [processRow, getKey_setKey]

theorem workers_skills_proj (i : Nat) (row : Row) :
    getKey (processRow .workers i row) "Skills" =
      some (coerceStrList (getKey row "Skills")) := by
  simp [processRow, getKey_setKey]

theorem workers_slots_proj (i : Nat) (row : Row) :
    getKey (processRow .workers i row) "AvailableSlots" =
      some (coerceIntList (getKey row "AvailableSlots")) := by
  simp [processRow, getKey_setKey]

theorem workers_mlpp_proj (i : Nat) (row : Row) :
    getKey (processRow .workers i row) "MaxLoadPerPhase" =
      some (coerceIntField (getKey row "MaxLoadPerPhase") 1) := by
  simp [processRow, getKey_setKey]

theorem workers_hr_proj (i : Nat) (row : Row) :
    getKey (processRow .workers i row) "HourlyRate" =
      some (coerceFloatField (getKey row "HourlyRate") 0) := by
  simp [processRow, getKey_setKey]

theorem tasks_id_proj (i : Nat) (row : Row) :
    getKey (processRow .tasks i row) "id" = some (idValue .tasks i row) := by
  simp [processRow, getKey_setKey]

theorem tasks_rs_proj (i : Nat) (row : Row) :
    getKey (processRow .tasks i row) "RequiredSkills" =
      some (coerceStrList (getKey row "RequiredSkills")) := by
  simp [processRow, getKey_setKey]

theorem tasks_pp_proj (i : Nat) (row : Row) :
    getKey (processRow .tasks i row) "PreferredPhases" =
      some (coerceIntList (getKey row "PreferredPhases")) := by
  simp [processRow, getKey_setKey]

theorem tasks_deps_proj (i : Nat) (row : Row) :
    getKey (processRow .tasks i row) "Dependencies" =
      some (coerceStrList (getKey row "Dependencies")) := by
  simp [processRow, getKey_setKey]

theorem tasks_dur_proj (i : Nat) (row : Row) :
    getKey (processRow .tasks i row) "Duration" =
      some (coerceIntField (getKey row "Duration") 1) := by
  simp [processRow, getKey_setKey]

theorem tasks_pl_proj (i : Nat) (row : Row) :
    getKey (processRow .tasks i row) "PriorityLevel" =
      some (coerceIntField (getKey row "PriorityLevel") 1) := by
  simp [processRow, getKey_setKey]

theorem tasks_mc_proj (i : Nat) (row : Row) :
    getKey (processRow .tasks i row) "MaxConcurrent" =
      some (coerceIntField (getKey row "MaxConcurrent") 1) := by
  simp [processRow, getKey_setKey]

/-! ## Claim theorems -/

/-- C1 counterexample: the raw headers "Client ID" and "  client id  " do
NOT map to ClientID — their trimmed, lowercased forms keep the internal
space, so they do not contain the whitespace-stripped label "clientid" and
fall through to the pass-through branch. -/
theorem C1_counterexample :
    mapHeader .clients "Client ID" = "Client ID" ∧
    mapHeader .clients "  client id  " = "  client id  " ∧
    ("Client ID" : String) ≠ "ClientID" ∧
    ("  client id  " : String) ≠ "ClientID" :=
  ⟨by decide, by decide, by decide, by decide⟩

/-- C1 (amended): a raw header maps to the canonical field of the first
label in declaration order whose whitespace-stripped, lowercased form is a
substring of the trimmed, lowercased header; of the three examples only
"ClientID" satisfies the test for kind clients (its normalized form contains
"clientid"), while "Client ID" and "  client id  " retain the internal space
and map to themselves. -/
theorem C1_header_substring_mapping :
    (∀ (t : EntityType) (h : String) (pre post : List (String × String))
       (lbl fld : String),
       labelsFor t = pre ++ (lbl, fld) :: post →
       (∀ p ∈ pre, headerMatch h p = false) →
       headerMatch h (lbl, fld) = true →
       mapHeader t h = fld) ∧
    mapHeader .clients "ClientID" = "ClientID" ∧
    mapHeader .clients "Client ID" = "Client ID" ∧
    mapHeader .clients "  client id  " = "  client id  " := by
  refine ⟨?_, by decide, by decide, by decide⟩
  intro t h pre post lbl fld heq h1 h2
  unfold mapHeader
  rw [heq, find?_of_partition _ pre post _ h1 h2]

/-- C1 witness: the general mapping statement applied at kind clients and
raw header "ClientID", with the label list split at its first entry. -/
theorem C1_header_substring_mapping_witness :
    labelsFor .clients = [] ++ ("Client ID", "ClientID") ::
      [("Client Name", "ClientName"),
       ("Client Group", "ClientGroup"),
       ("Priority Level", "PriorityLevel"),
       ("Requested Task IDs", "RequestedTaskIDs"),
       ("Preferred Phases", "PreferredPhases"),
       ("Max Budget", "MaxBudget"),
       ("Attributes JSON", "AttributesJSON")] ∧
    (∀ p ∈ ([] : List (String × String)), headerMatch "ClientID" p = false) ∧
    headerMatch "ClientID" ("Client ID", "ClientID") = true ∧
    mapHeader .clients "ClientID" = "ClientID" :=
  ⟨by decide, by simp, by decide,
   C1_header_substring_mapping.1 .clients "ClientID" []
     [("Client Name", "ClientName"),
      ("Client Group", "ClientGroup"),
      ("Priority Level", "PriorityLevel"),
      ("Requested Task IDs", "RequestedTaskIDs"),
      ("Preferred Phases", "PreferredPhases"),
      ("Max Budget", "MaxBudget"),
      ("Attributes JSON", "AttributesJSON")]
     "Client ID" "ClientID" (by decide) (by simp) (by decide)⟩

/-- C2: the identity lookup key is built from the lowercase entity name
(`"clients".slice(0, -1) + "ID"` gives "clientID", not "ClientID"), so a row
that carries its id under the canonical field ClientID still receives the
synthesized id "temp-0" instead of "C1". -/
theorem C2_id_lookup_key_mismatch :
    idKey .clients = "clientID" ∧
    idKey .workers = "workerID" ∧
    idKey .tasks = "taskID" ∧
    getKey (processRow .clients 0 [("ClientID", JsVal.str "C1")]) "id" =
      some (JsVal.str "temp-0") ∧
    ("temp-0" : String) ≠ "C1" :=
  ⟨rfl, rfl, rfl, rfl, by decide⟩

/-- C6: a raw header matched by no canonical label of its kind maps to
itself unchanged; in particular "Notes" for kind clients maps to "Notes". -/
theorem C6_unmatched_header_passthrough :
    (∀ (t : EntityType) (h : String),
       (∀ p ∈ labelsFor t, headerMatch h p = false) → mapHeader t h = h) ∧
    mapHeader .clients "Notes" = "Notes" := by
  refine ⟨?_, by decide⟩
  intro t h hall
  unfold mapHeader
  have hnone : (labelsFor t).find? (headerMatch h) = none :=
    List.find?_eq_none.mpr (fun x hx => by simp [hall x hx])
  rw [hnone]

/-- C6 witness: no clients label matches the raw header "Notes", and the
theorem instantiated there returns "Notes" unchanged. -/
theorem C6_unmatched_header_passthrough_witness :
    (∀ p ∈ labelsFor .clients, headerMatch "Notes" p = false) ∧
    mapHeader .clients "Notes" = "Notes" :=
  ⟨by decide, C6_unmatched_header_passthrough.1 .clients "Notes" (by decide)⟩

/-- C3 counterexample: coercing the empty clients row leaves the declared
fields ClientID, ClientName, ClientGroup and AttributesJSON undefined — the
coercer only spreads them from the source row, so the produced record is not
total. -/
theorem C3_counterexample :
    getKey (processRow .clients 0 []) "ClientName" = none ∧
    getKey (processRow .clients 0 []) "ClientGroup" = none ∧
    getKey (processRow .clients 0 []) "ClientID" = none ∧
    getKey (processRow .clients 0 []) "AttributesJSON" = none :=
  ⟨rfl, rfl, rfl, rfl⟩

/-- C3 (amended): for every input row and kind, the fields the coercer
itself assigns — id and the kind-specific list-typed and scalar numeric
fields — are always defined, and the scalar numeric fields always hold
numbers; the remaining declared fields (entity id, display name, group
label, attributes payload) are merely spread from the source row and are
undefined when the row omits them. -/
theorem C3_assigned_fields_total (i : Nat) (row : Row) :
    ((getKey (processRow .clients i row) "id").isSome = true ∧
     (getKey (processRow .clients i row) "RequestedTaskIDs").isSome = true ∧
     (getKey (processRow .clients i row) "PreferredPhases").isSome = true ∧
     (∃ q, getKey (processRow .clients i row) "PriorityLevel" = some (.num q)) ∧
     (∃ q, getKey (processRow .clients i row) "MaxBudget" = some (.num q))) ∧
    ((getKey (processRow .workers i row) "id").isSome = true ∧
     (getKey (processRow .workers i row) "Skills").isSome = true ∧
     (getKey (processRow .workers i row) "AvailableSlots").isSome = true ∧
     (∃ q, getKey (processRow .workers i row) "MaxLoadPerPhase" = some (.num q)) ∧
     (∃ q, getKey (processRow .workers i row) "HourlyRate" = some (.num q))) ∧
    ((getKey (processRow .tasks i row) "id").isSome = true ∧
     (getKey (processRow .tasks i row) "RequiredSkills").isSome = true ∧
     (getKey (processRow .tasks i row) "PreferredPhases").isSome = true ∧
     (getKey (processRow .tasks i row) "Dependencies").isSome = true ∧
     (∃ q, getKey (processRow .tasks i row) "Duration" = some (.num q)) ∧
     (∃ q, getKey (processRow .tasks i row) "PriorityLevel" = some (.num q)) ∧
     (∃ q, getKey (processRow .tasks i row) "MaxConcurrent" = some (.num q))) := by
  refine ⟨⟨?_, ?_, ?_, ?_, ?_⟩, ⟨?_, ?_, ?_, ?_, ?_⟩, ⟨?_, ?_, ?_, ?_, ?_, ?_, ?_⟩⟩
  · rw [clients_id_proj]; rfl
  · rw [clients_rti_proj]; rfl
  · rw [clients_pp_proj]; rfl
  · obtain ⟨q, hq⟩ := coerceIntField_exists_num (getKey row "PriorityLevel") 1
    exact ⟨q, by rw [clients_pl_proj, hq]⟩
  · obtain ⟨q, hq⟩ := coerceFloatField_exists_num (getKey row "MaxBudget") 0
    exact ⟨q, by rw [clients_mb_proj, hq]⟩
  · rw [workers_id_proj]; rfl
  · rw [workers_skills_proj]; rfl
  · rw [workers_slots_proj]; rfl
  · obtain ⟨q, hq⟩ := coerceIntField_exists_num (getKey row "MaxLoadPerPhase") 1
    exact ⟨q, by rw [workers_mlpp_proj, hq]⟩
  · obtain ⟨q, hq⟩ := coerceFloatField_exists_num (getKey row "HourlyRate") 0
    exact ⟨q, by rw [workers_hr_proj, hq]⟩
  · rw [tasks_id_proj]; rfl
  · rw [tasks_rs_proj]; rfl
  · rw [tasks_pp_proj]; rfl
  · rw [tasks_deps_proj]; rfl
  · obtain ⟨q, hq⟩ := coerceIntField_exists_num (getKey row "Duration") 1
    exact ⟨q, by rw [tasks_dur_proj, hq]⟩
  · obtain ⟨q, hq⟩ := coerceIntField_exists_num (getKey row "PriorityLevel") 1
    exact ⟨q, by rw [tasks_pl_proj, hq]⟩
  · obtain ⟨q, hq⟩ := coerceIntField_exists_num (getKey row "MaxConcurrent") 1
    exact ⟨q, by rw [tasks_mc_proj, hq]⟩

/-- C4: every scalar numeric field falls back to its fixed per-field default
when the parse fails — priority level 1, budget and hourly rate 0, duration,
max load per phase and max concurrent 1; in particular PriorityLevel "abc"
coerces to 1 and MaxBudget "" coerces to 0. -/
theorem C4_numeric_parse_failure_defaults (i : Nat) (row : Row) :
    (parseIntVal (getKey row "PriorityLevel") = none →
       getKey (processRow .clients i row) "PriorityLevel" = some (.num ⟨1, 0⟩)) ∧
    (parseFloatVal (getKey row "MaxBudget") = none →
       getKey (processRow .clients i row) "MaxBudget" = some (.num ⟨0, 0⟩)) ∧
    (parseIntVal (getKey row "MaxLoadPerPhase") = none →
       getKey (processRow .workers i row) "MaxLoadPerPhase" = some (.num ⟨1, 0⟩)) ∧
    (parseFloatVal (getKey row "HourlyRate") = none →
       getKey (processRow .workers i row) "HourlyRate" = some (.num ⟨0, 0⟩)) ∧
    (parseIntVal (getKey row "Duration") = none →
       getKey (processRow .tasks i row) "Duration" = some (.num ⟨1, 0⟩)) ∧
    (parseIntVal (getKey row "PriorityLevel") = none →
       getKey (processRow .tasks i row) "PriorityLevel" = some (.num ⟨1, 0⟩)) ∧
    (parseIntVal (getKey row "MaxConcurrent") = none →
       getKey (processRow .tasks i row) "MaxConcurrent" = some (.num ⟨1, 0⟩)) ∧
    getKey (processRow .clients 0 [("PriorityLevel", .str "abc")]) "PriorityLevel" =
      some (.num ⟨1, 0⟩) ∧
    getKey (processRow .clients 0 [("MaxBudget", .str "")]) "MaxBudget" =
      some (.num ⟨0, 0⟩) := by
  refine ⟨?_, ?_, ?_, ?_, ?_, ?_, ?_, rfl, rfl⟩
  · intro h; rw [clients_pl_proj, coerceIntField_of_parse_none _ _ h]
  · intro h; rw [clients_mb_proj, coerceFloatField_of_parse_none _ _ h]
  · intro h; rw [workers_mlpp_proj, coerceIntField_of_parse_none _ _ h]
  · intro h; rw [workers_hr_proj, coerceFloatField_of_parse_none _ _ h]
  · intro h; rw [tasks_dur_proj, coerceIntField_of_parse_none _ _ h]
  · intro h; rw [tasks_pl_proj, coerceIntField_of_parse_none _ _ h]
  · intro h; rw [tasks_mc_proj, coerceIntField_of_parse_none _ _ h]

/-- C4 witness: a row whose numeric fields are all unparsable, with every
hypothesis of the theorem discharged there. -/
theorem C4_numeric_parse_failure_defaults_witness :
    (parseIntVal (getKey [(("PriorityLevel" : String), JsVal.str "abc"),
        ("MaxBudget", JsVal.str ""), ("MaxLoadPerPhase", JsVal.str "x"),
        ("HourlyRate", JsVal.str ""), ("Duration", JsVal.str "?"),
        ("MaxConcurrent", JsVal.str "-")] "PriorityLevel") = none) ∧
    (parseFloatVal (getKey [(("PriorityLevel" : String), JsVal.str "abc"),
        ("MaxBudget", JsVal.str ""), ("MaxLoadPerPhase", JsVal.str "x"),
        ("HourlyRate", JsVal.str ""), ("Duration", JsVal.str "?"),
        ("MaxConcurrent", JsVal.str "-")] "MaxBudget") = none) ∧
    getKey (processRow .clients 7 [(("PriorityLevel" : String), JsVal.str "abc"),
        ("MaxBudget", JsVal.str ""), ("MaxLoadPerPhase", JsVal.str "x"),
        ("HourlyRate", JsVal.str ""), ("Duration", JsVal.str "?"),
        ("MaxConcurrent", JsVal.str "-")] ) "PriorityLevel" = some (.num ⟨1, 0⟩) ∧
    getKey (processRow .clients 7 [(("PriorityLevel" : String), JsVal.str "abc"),
        ("MaxBudget", JsVal.str ""), ("MaxLoadPerPhase", JsVal.str "x"),
        ("HourlyRate", JsVal.str ""), ("Duration", JsVal.str "?"),
        ("MaxConcurrent", JsVal.str "-")] ) "MaxBudget" = some (.num ⟨0, 0⟩) :=
  ⟨rfl, rfl,
   (C4_numeric_parse_failure_defaults 7 _).1 rfl,
   (C4_numeric_parse_failure_defaults 7 _).2.1 rfl⟩

/-- C5: a textual list field splits on commas with each piece trimmed
(numeric-list fields also parse each piece as an integer), an array value
passes through unchanged, an absent value becomes the empty array; Skills
"go, rust,  python" coerces to ["go","rust","python"] and re-joins with
", " to the whitespace-normalized "go, rust, python". -/
theorem C5_list_field_coercion (i : Nat) (row : Row) (s : String) (l : List JsVal) :
    getKey (processRow .clients i row) "RequestedTaskIDs" =
      some (coerceStrList (getKey row "RequestedTaskIDs")) ∧
    getKey (processRow .clients i row) "PreferredPhases" =
      some (coerceIntList (getKey row "PreferredPhases")) ∧
    getKey (processRow .workers i row) "Skills" =
      some (coerceStrList (getKey row "Skills")) ∧
    getKey (processRow .workers i row) "AvailableSlots" =
      some (coerceIntList (getKey row "AvailableSlots")) ∧
    getKey (processRow .tasks i row) "RequiredSkills" =
      some (coerceStrList (getKey row "RequiredSkills")) ∧
    getKey (processRow .tasks i row) "PreferredPhases" =
      some (coerceIntList (getKey row "PreferredPhases")) ∧
    getKey (processRow .tasks i row) "Dependencies" =
      some (coerceStrList (getKey row "Dependencies")) ∧
    coerceStrList (some (.str s)) =
      .arr ((splitComma s).map (fun p => .str (trimStr p))) ∧
    coerceIntList (some (.str s)) =
      .arr ((splitComma s).map (fun p => intResult (parseIntStr (trimStr p)))) ∧
    coerceStrList (some (.arr l)) = .arr l ∧
    coerceIntList (some (.arr l)) = .arr l ∧
    coerceStrList none = .arr [] ∧
    coerceIntList none = .arr [] ∧
    coerceStrList (some (.str "go, rust,  python")) =
      .arr [.str "go", .str "rust", .str "python"] ∧
    (match coerceStrList (some (.str "go, rust,  python")) with
      | .arr vs => joinSep ", " (jsToStringList vs)
      | _ => "") = "go, rust, python" :=
  ⟨clients_rti_proj i row, clients_pp_proj i row, workers_skills_proj i row,
   workers_slots_proj i row, tasks_rs_proj i row, tasks_pp_proj i row,
   tasks_deps_proj i row, rfl, rfl,
   by simp [coerceStrList, jsOr, jsTruthy],
   by simp [coerceIntList, jsOr, jsTruthy],
   rfl, rfl, rfl, rfl⟩

/-- C7: when any of the three file slots is empty the upload fails with the
single aggregate message and parses nothing; when all three slots hold
successfully parsed files the upload succeeds with the three
normalized-then-coerced collections and an empty warnings list. -/
theorem C7_upload_orchestration :
    (∀ fc fw ft : Option (Except String (List Row)),
       fc = none ∨ fw = none ∨ ft = none →
       (handleUpload fc fw ft).success = false ∧
       (handleUpload fc fw ft).errors = [missingFilesMsg] ∧
       (handleUpload fc fw ft).parsedCount = 0) ∧
    (∀ cr wr tr : List Row,
       handleUpload (some (.ok cr)) (some (.ok wr)) (some (.ok tr)) =
         { success := true
           uploadData := some
             (processData (mapHeaders cr .clients) .clients,
              processData (mapHeaders wr .workers) .workers,
              processData (mapHeaders tr .tasks) .tasks)
           errors := []
           warnings := some []
           parsedCount := 3 }) := by
  constructor
  · intro fc fw ft h
    rcases h with h | h | h <;> subst h
    · exact ⟨rfl, rfl, rfl⟩
    · cases fc <;> exact ⟨rfl, rfl, rfl⟩
    · cases fc <;> cases fw <;> exact ⟨rfl, rfl, rfl⟩
  · intro cr wr tr
    rfl

/-- C7 witness: all three slots empty satisfies the missing-file hypothesis,
and the theorem reports the aggregate failure with no parsing. -/
theorem C7_upload_orchestration_witness :
    ((none : Option (Except String (List Row))) = none ∨
     (none : Option (Except String (List Row))) = none ∨
     (none : Option (Except String (List Row))) = none) ∧
    (handleUpload none none none).success = false ∧
    (handleUpload none none none).errors = [missingFilesMsg] ∧
    (handleUpload none none none).parsedCount = 0 :=
  ⟨Or.inl rfl, C7_upload_orchestration.1 none none none (Or.inl rfl)⟩

/-- C8: the grid filter keeps exactly the records some stringified field
value of which contains the search term case-insensitively; the Acme/Beta
collection filtered with "ac" keeps exactly the Acme record. -/
theorem C8_filter_semantics (rs : List Row) (term : String) (r : Row) :
    (r ∈ filteredData rs term ↔ r ∈ rs ∧ rowMatches r term = true) ∧
    filteredData
      [[("ClientName", .str "Acme")], [("ClientName", .str "Beta")]] "ac" =
      [[("ClientName", .str "Acme")]] := by
  constructor
  · simp [filteredData, List.mem_filter]
  · rfl

/-- C9: record coercion never raises — the exception-aware rendering of the
row processor, in which the split method call is fallible, always returns
the coerced record of the total model, for every kind and every row. -/
theorem C9_coercion_never_raises (t : EntityType) (i : Nat) (row : Row) :
    processRowE t i row = .ok (processRow t i row) := by
  cases t <;>
    simp [processRowE, processRow, coerceStrListE_ok, coerceIntListE_ok]

/-- C10 (implicit): the numeric fallback fires on the truthiness of the
parsed value, not only on parse failure — a parse result of 0 is replaced by
the per-field default just like a failed parse, so the integer fields with
default 1 can never hold 0 (raw "0" coerces to 1), while MaxBudget and
HourlyRate keep 0 only because their default is 0. -/
theorem C10_truthiness_fallback (i : Nat) (row : Row) :
    (∀ (v : Option JsVal) (d : Int), parseIntVal v = some 0 →
       coerceIntField v d = .num ⟨d, 0⟩) ∧
    (∀ (v : Option JsVal) (d : Int) (q : DecNum),
       parseFloatVal v = some q → q.m = 0 →
       coerceFloatField v d = .num ⟨d, 0⟩) ∧
    (∃ q, getKey (processRow .clients i row) "PriorityLevel" = some (.num q) ∧ q.m ≠ 0) ∧
    (∃ q, getKey (processRow .workers i row) "MaxLoadPerPhase" = some (.num q) ∧ q.m ≠ 0) ∧
    (∃ q, getKey (processRow .tasks i row) "Duration" = some (.num q) ∧ q.m ≠ 0) ∧
    (∃ q, getKey (processRow .tasks i row) "PriorityLevel" = some (.num q) ∧ q.m ≠ 0) ∧
    (∃ q, getKey (processRow .tasks i row) "MaxConcurrent" = some (.num q) ∧ q.m ≠ 0) ∧
    getKey (processRow .clients 0 [("PriorityLevel", .str "0")]) "PriorityLevel" =
      some (.num ⟨1, 0⟩) ∧
    getKey (processRow .tasks 0 [("Duration", .str "0")]) "Duration" =
      some (.num ⟨1, 0⟩) ∧
    getKey (processRow .workers 0 [("MaxLoadPerPhase", .str "0")]) "MaxLoadPerPhase" =
      some (.num ⟨1, 0⟩) ∧
    getKey (processRow .tasks 0 [("MaxConcurrent", .str "0")]) "MaxConcurrent" =
      some (.num ⟨1, 0⟩) ∧
    getKey (processRow .clients 0 [("MaxBudget", .str "0")]) "MaxBudget" =
      some (.num ⟨0, 0⟩) ∧
    getKey (processRow .workers 0 [("HourlyRate", .str "0")]) "HourlyRate" =
      some (.num ⟨0, 0⟩) := by
  refine ⟨fun v d h => coerceIntField_of_parse_zero v d h,
    fun v d q h hz => coerceFloatField_of_parse_zero v d q h hz,
    ?_, ?_, ?_, ?_, ?_, rfl, rfl, rfl, rfl, rfl, rfl⟩
  · obtain ⟨q, hq, hnz⟩ := coerceIntField_one_ne_zero (getKey row "PriorityLevel")
    exact ⟨q, by rw [clients_pl_proj, hq], hnz⟩
  · obtain ⟨q, hq, hnz⟩ := coerceIntField_one_ne_zero (getKey row "MaxLoadPerPhase")
    exact ⟨q, by rw [workers_mlpp_proj, hq], hnz⟩
  · obtain ⟨q, hq, hnz⟩ := coerceIntField_one_ne_zero (getKey row "Duration")
    exact ⟨q, by rw [tasks_dur_proj, hq], hnz⟩
  · obtain ⟨q, hq, hnz⟩ := coerceIntField_one_ne_zero (getKey row "PriorityLevel")
    exact ⟨q, by rw [tasks_pl_proj, hq], hnz⟩
  · obtain ⟨q, hq, hnz⟩ := coerceIntField_one_ne_zero (getKey row "MaxConcurrent")
    exact ⟨q, by rw [tasks_mc_proj, hq], hnz⟩

/-- C10 witness: the raw value "0" parses to the integer 0 and to the
decimal 0, and the theorem instantiated there replaces both by the field
default. -/
theorem C10_truthiness_fallback_witness :
    parseIntVal (some (JsVal.str "0")) = some 0 ∧
    coerceIntField (some (JsVal.str "0")) 1 = .num ⟨1, 0⟩ ∧
    parseFloatVal (some (JsVal.str "0")) = some ⟨0, 0⟩ ∧
    coerceFloatField (some (JsVal.str "0")) 0 = .num ⟨0, 0⟩ :=
  ⟨rfl,
   (C10_truthiness_fallback 0 []).1 (some (JsVal.str "0")) 1 rfl,
   rfl,
   (C10_truthiness_fallback 0 []).2.1 (some (JsVal.str "0")) 0 ⟨0, 0⟩ rfl rfl⟩

end Digitly
